import Mathlib

/-!
Verification development for the dr-scripts repository: shallow embeddings of
the DR automation operations (Data Factory linked services and triggers,
resource locks, Batch pool scaling, Key Vault sync, token caching, build.json
generation) together with theorems about their contracts.

Stateful Python methods are embedded as pure functions from an explicit state
to a new state plus a description of the Azure API calls they issue; fallible
code returns `Except` or a dedicated result constructor.
-/

set_option autoImplicit false

namespace DRScripts

/-! ## Linked-service FQDN rewrite (`update_linked_service_sf_account`)

The source (AzHelper.py lines 231-310 and azure_tools/adf/linked_services.py
lines 95-174, identical logic) rewrites a Snowflake account FQDN with
`re.sub(rf"(?<=://){re.escape(old_fqdn)}(?=\.)", new_fqdn, s)`:
every occurrence of the literal `old_fqdn` that is immediately preceded by
the three characters `://` and immediately followed by a literal dot is
replaced by `new_fqdn`; the lookbehind and lookahead are zero-width, and
`re.sub` scans the original string left to right with non-overlapping
matches. -/

/-- `listStartsWith pat l` is true when `pat` is a prefix of `l`. -/
def listStartsWith : List Char → List Char → Bool
  | [], _ => true
  | _ :: _, [] => false
  | a :: as, b :: bs => a == b && listStartsWith as bs

/-- Scanner for the anchored substitution.  `rp` is the reversed list of the
original characters already scanned (so the lookbehind `(?<=://)` is the test
that `rp` starts with `/`, `/`, `:`); at each position the literal pattern
`old` matches if it is a prefix of the rest and the character after it is a
dot.  On a match the replacement `new` is emitted and scanning resumes after
the matched text, exactly as `re.sub` does.  An empty `old` is treated as
never matching (the scripts always pass a non-empty FQDN).  The `fuel`
argument only makes the recursion structural; every step consumes at least
one character of the remaining input, so with `fuel` at least the input
length the zero-fuel default is never reached. -/
def subGo (old new : List Char) : Nat → List Char → List Char → List Char
  | 0, _, rest => rest
  | _ + 1, _, [] => []
  | fuel + 1, rp, c :: cs =>
    if old ≠ [] ∧ rp.take 3 = ['/', '/', ':'] ∧
        listStartsWith old (c :: cs) = true ∧
        ((c :: cs).drop old.length).head? = some '.' then
      new ++ subGo old new fuel (old.reverse ++ rp) ((c :: cs).drop old.length)
    else
      c :: subGo old new fuel (c :: rp) cs

/-- The anchored FQDN substitution
`re.sub(rf"(?<=://){re.escape(old)}(?=\.)", new, s)`. -/
def sfSub (old new s : String) : String :=
  String.mk (subGo old.data new.data s.data.length [] s.data)

/-- The slice of a linked-service payload read and written by
`update_linked_service_sf_account`: the service type and the two
Snowflake schema variants of the stored connection value
(`properties.typeProperties.connectionString` for V1,
`properties.typeProperties.accountIdentifier` for V2). -/
structure LinkedService where
  serviceType : String
  connectionString : Option String
  accountIdentifier : Option String
deriving DecidableEq, Repr

/-- Outcome of `update_linked_service_sf_account`:
`keyError` models the KeyError raised when the expected typeProperties field
is absent; `warned` is the early return after the warning print (no write);
`dryRunPreview ls` is the dry-run return after printing the would-be payload
(no write); `updated ls` means `linked_services.create_or_update` was called
with payload `ls`. -/
inductive UpdateResult where
  | keyError
  | warned
  | dryRunPreview (ls : LinkedService)
  | updated (ls : LinkedService)
deriving DecidableEq, Repr

/-- Embedding of `ADFLinkedServices.update_linked_service_sf_account`
(AzHelper.py 231-310 / linked_services.py 95-174).  Note that the source's
Snowflake V2 branch computes `new_identifier` but then tests
`new_fqdn == current_identifier` and writes the bare `new_fqdn`; the
embedding reproduces that behaviour exactly. -/
def update_linked_service_sf_account (ls : LinkedService)
    (old_fqdn new_fqdn : String) (dry_run : Bool) : UpdateResult :=
  if ls.serviceType == "Snowflake" then
    match ls.connectionString with
    | none => .keyError
    | some connection_string =>
      let new_connection_string := sfSub old_fqdn new_fqdn connection_string
      if new_connection_string == connection_string then
        .warned
      else
        let ls2 := { ls with connectionString := some new_connection_string }
        if dry_run then .dryRunPreview ls2 else .updated ls2
  else
    match ls.accountIdentifier with
    | none => .keyError
    | some current_identifier =>
      let _new_identifier := sfSub old_fqdn new_fqdn current_identifier
      if new_fqdn == current_identifier then
        .warned
      else
        let ls2 := { ls with accountIdentifier := some new_fqdn }
        if dry_run then .dryRunPreview ls2 else .updated ls2

/-! ## Token caching (`AzureAuthentication.get_token`)

AzHelper.py lines 36-56 and azure_tools/auth.py lines 91-114 (identical
logic).  Times are modelled as integers (Unix seconds, matching the
`expires_on` timestamp of the credential response); `timedelta(minutes=5)`
is 300 seconds. -/

/-- The mutable token cache of `AzureAuthentication`: `self.token` and
`self.token_expiry`. -/
structure TokenState where
  token : Option String
  tokenExpiry : Option Int
deriving DecidableEq, Repr

/-- The credential environment: `credential.get_token(...)` returns this
fresh token with this `expires_on` timestamp. -/
structure Credential where
  freshToken : String
  expiresOn : Int
deriving DecidableEq, Repr

/-- Embedding of `AzureAuthentication.get_token`.  Returns the value of
`self.token` after the call, the new cache state, and whether
`credential.get_token` was invoked.  The refresh condition mirrors the
source disjunction `token is None or token_expiry is None or
(token_expiry is not None and now >= token_expiry)`. -/
def get_token (cred : Credential) (now : Int) (st : TokenState) :
    Option String × TokenState × Bool :=
  let needsNew :=
    match st.token, st.tokenExpiry with
    | none, _ => true
    | some _, none => true
    | some _, some e => decide (e ≤ now)
  if needsNew then
    let st2 : TokenState :=
      { token := some cred.freshToken
        tokenExpiry := some (cred.expiresOn - 5 * 60) }
    (st2.token, st2, true)
  else
    (st.token, st, false)

/-! ## Data Factory triggers (`ADFTrigger`)

AzHelper.py lines 888-1026 and azure_tools/adf/triggers.py lines 91-229
(identical logic).  A factory is an association list from trigger name to
the trigger slice the scripts read and write: `properties.type`,
`properties.runtime_state`, and `properties.start_time` (modelled as an
integer timestamp; the ISO-8601 parsing of string inputs is not modelled,
the embedding takes the parsed value directly). -/

/-- The slice of a trigger resource used by the scripts. -/
structure Trigger where
  ttype : String
  runtimeState : String
  startTime : Int
deriving DecidableEq, Repr

/-- A Data Factory: trigger name to trigger. -/
abbrev Factory := List (String × Trigger)

/-- Control-plane read `client.triggers.get`. -/
def lookupTrigger (fac : Factory) (n : String) : Option Trigger :=
  match fac.find? (fun p => p.1 == n) with
  | none => none
  | some p => some p.2

/-- Effect of `begin_stop`/`begin_start` followed by `operation.wait()`:
the named trigger's runtime state becomes `s`. -/
def setTriggerState (fac : Factory) (n s : String) : Factory :=
  fac.map (fun p => if p.1 == n then (p.1, { p.2 with runtimeState := s }) else p)

/-- Effect of `client.triggers.delete`. -/
def deleteTrigger (fac : Factory) (n : String) : Factory :=
  fac.filter (fun p => p.1 != n)

/-- Effect of `client.triggers.create_or_update` with payload `t`: the
trigger definition is stored under `n`, and — ADF control-plane behaviour —
a newly created trigger is in runtime state `Stopped` (`runtime_state` is
read-only in the payload). -/
def createTrigger (fac : Factory) (n : String) (t : Trigger) : Factory :=
  deleteTrigger fac n ++ [(n, { t with runtimeState := "Stopped" })]

/-- Trigger API calls issued by the scripts, for stating which calls a code
path performs and in which order. -/
inductive TriggerCall where
  | fetch (name : String)
  | stop (name : String)
  | start (name : String)
  | del (name : String)
  | create (name : String) (t : Trigger)
deriving DecidableEq, Repr

/-- Embedding of `ADFTrigger.manage_trigger` (AzHelper.py 888-925 /
triggers.py 91-128).  `triggers.get` on a missing trigger raises, modelled
as `Except.error`.  Returns the factory after the call together with the
list of trigger API calls issued. -/
def manage_trigger (fac : Factory) (trigger_name action : String) :
    Except String (Factory × List TriggerCall) :=
  match lookupTrigger fac trigger_name with
  | none => .error "trigger not found"
  | some trigger_obj =>
    if action == "stop" && trigger_obj.runtimeState == "Started" then
      .ok (setTriggerState fac trigger_name "Stopped",
        [.fetch trigger_name, .stop trigger_name])
    else if action == "start" && trigger_obj.runtimeState == "Stopped" then
      .ok (setTriggerState fac trigger_name "Started",
        [.fetch trigger_name, .start trigger_name])
    else
      .ok (fac, [.fetch trigger_name])

/-- Embedding of `ADFTrigger.reset_tumbling_with_start_time`
(AzHelper.py 950-1026 / triggers.py 153-229): fetch and verify the trigger,
capture its state and definition, stop it if it was running, delete it,
recreate it with the new start time (the source mutates
`trigger_properties.start_time` on the fetched object before passing it to
`create_or_update`), and restart it if it was running. -/
def reset_tumbling_with_start_time (fac : Factory) (trigger_name : String)
    (new_start_time : Int) : Except String (Factory × List TriggerCall) :=
  match lookupTrigger fac trigger_name with
  | none => .error "trigger not found"
  | some trigger_obj =>
    if trigger_obj.ttype != "TumblingWindowTrigger" then
      .error "not a tumbling window trigger"
    else
      let original_state := trigger_obj.runtimeState
      let step1 : Except String (Factory × List TriggerCall) :=
        if original_state == "Started" then manage_trigger fac trigger_name "stop"
        else .ok (fac, [])
      match step1 with
      | .error e => .error e
      | .ok (fac1, calls1) =>
        let fac2 := deleteTrigger fac1 trigger_name
        let trigger_properties := { trigger_obj with startTime := new_start_time }
        let fac3 := createTrigger fac2 trigger_name trigger_properties
        let step2 : Except String (Factory × List TriggerCall) :=
          if original_state == "Started" then manage_trigger fac3 trigger_name "start"
          else .ok (fac3, [])
        match step2 with
        | .error e => .error e
        | .ok (fac4, calls2) =>
          .ok (fac4,
            TriggerCall.fetch trigger_name :: calls1 ++
              TriggerCall.del trigger_name ::
                TriggerCall.create trigger_name trigger_properties :: calls2)

/-! ## Resource locks (`AzureResourceLock`) and the lock-guarded trigger
sequence (`manage_adf_triggers`)

AzHelper.py lines 683-826 and DR_Automation/DR_start_stop_adf_trigger.py
lines 46-127.  The resource group's lock set is a list of locks; the
`AzureResourceLock` object state is the recorded `lock_objs` list plus the
`deleted` flag. -/

/-- An Azure management lock as recorded by the scripts: name, level,
notes. -/
structure Lock where
  name : String
  level : String
  notes : String
deriving DecidableEq, Repr

/-- Effect of `management_locks.delete_at_resource_group_level`: the lock
with the given name is removed. -/
def deleteLockAt (w : List Lock) (n : String) : List Lock :=
  w.filter (fun x => x.name != n)

/-- Effect of `management_locks.create_or_update_at_resource_group_level`
called with `lock_name = lk.name` and `parameters = level/notes of lk`:
replaces the lock of that name if present, otherwise adds it. -/
def createOrUpdateLockAt (w : List Lock) (lk : Lock) : List Lock :=
  if w.any (fun x => x.name == lk.name) then
    w.map (fun x => if x.name == lk.name then lk else x)
  else
    w ++ [lk]

/-- Embedding of `AzureResourceLock.release_locks` (AzHelper.py 740-761):
if no locks were recorded it is a no-op, otherwise every recorded lock is
deleted and the `deleted` flag is set. -/
def release_locks (lockObjs : List Lock) (deleted : Bool) (w : List Lock) :
    List Lock × Bool :=
  if lockObjs.isEmpty then (w, deleted)
  else (lockObjs.foldl (fun acc lk => deleteLockAt acc lk.name) w, true)

/-- Embedding of `AzureResourceLock.recreate_locks` (AzHelper.py 763-787):
a no-op when no locks were recorded or when they were not deleted,
otherwise every recorded lock is recreated with its recorded name, level
and notes. -/
def recreate_locks (lockObjs : List Lock) (deleted : Bool) (w : List Lock) :
    List Lock :=
  if lockObjs.isEmpty then w
  else if !deleted then w
  else lockObjs.foldl (fun acc lk => createOrUpdateLockAt acc lk) w

/-- The lock handling performed by one iteration of `manage_adf_triggers`
(DR_start_stop_adf_trigger.py 46-127) for one domain.  When not in dry-run
mode the script records the locks and releases them if any exist; it then
lists the factory's schedule/tumbling triggers, and when that list is
empty (`triggersEmpty`) it prints and runs `continue` (lines 73-75),
skipping lock recreation with no exception raised.  The dry-run `continue`
at lines 79-83 likewise skips recreation, but in dry-run mode nothing was
released.  Otherwise the trigger start/stop/reset steps run, abstracted by
whether they raise (`stepsRaise`); they do not touch the lock set, and the
recorded locks are recreated both on the normal path (line 117-119) and in
the per-domain exception handler (lines 121-127). -/
def manage_adf_triggers_locks (dry_run triggersEmpty stepsRaise : Bool)
    (locks0 : List Lock) : List Lock :=
  let lockObjs := locks0
  let locks := locks0
  let (w1, deleted) :=
    if !dry_run && !locks.isEmpty then release_locks lockObjs false locks0
    else (locks0, false)
  if triggersEmpty then w1
  else if dry_run then w1
  else if stepsRaise then
    if !dry_run && !locks.isEmpty then recreate_locks lockObjs deleted w1 else w1
  else
    if !dry_run && !locks.isEmpty then recreate_locks lockObjs deleted w1 else w1

/-! ## Batch pool scaling (`AzureBatchPool.scale_pool_nodes`,
`scale_batch_pools`)

AzHelper.py lines 563-621 / azure_tools/batch.py lines 53-111 (identical
logic), and DR_scale_batch.py lines 41-74.  Only the
`scaleSettings.fixedScale.targetDedicatedNodes` slice of the pool
configuration is read or written by these functions; the nested `Option`s
mirror the `.get(..., {})` / `.get(..., 0)` defaulting chain. -/

/-- `scaleSettings.fixedScale` slice. -/
structure FixedScale where
  targetDedicatedNodes : Option Int
deriving DecidableEq, Repr

/-- `scaleSettings` slice. -/
structure ScaleSettings where
  fixedScale : Option FixedScale
deriving DecidableEq, Repr

/-- The pool configuration slice used by the scripts. -/
structure PoolConfig where
  scaleSettings : Option ScaleSettings
deriving DecidableEq, Repr

/-- The defaulting read
`pool_config.get("scaleSettings", {}).get("fixedScale", {}).get("targetDedicatedNodes", 0)`. -/
def currentDedicatedNodes (pc : PoolConfig) : Int :=
  match pc.scaleSettings with
  | none => 0
  | some ss =>
    match ss.fixedScale with
    | none => 0
    | some fs => fs.targetDedicatedNodes.getD 0

/-- Outcome of `scale_pool_nodes`: `valueError` models the raised
`ValueError` on a negative target; `noChange cfg` is the early return of
the unmodified current configuration (no update call); `dryRunPreview cfg`
is the dry-run return of the would-be configuration (no update call);
`updated cfg` means `client.pool.update` was called with `cfg`. -/
inductive ScaleResult where
  | valueError
  | noChange (cfg : PoolConfig)
  | dryRunPreview (cfg : PoolConfig)
  | updated (cfg : PoolConfig)
deriving DecidableEq, Repr

/-- Embedding of `AzureBatchPool.scale_pool_nodes` (AzHelper.py 563-621 /
batch.py 53-111). -/
def scale_pool_nodes (pool : PoolConfig) (target_nodes : Int)
    (dry_run : Bool) : ScaleResult :=
  if target_nodes < 0 then .valueError
  else
    let current_nodes := currentDedicatedNodes pool
    if current_nodes == target_nodes then .noChange pool
    else
      let pool2 : PoolConfig :=
        { scaleSettings := some
            { fixedScale := some { targetDedicatedNodes := some target_nodes } } }
      if dry_run then .dryRunPreview pool2 else .updated pool2

/-- The stored pool configuration after one `scale_pool_nodes` call,
together with whether the call raised: an `updated` result means the Azure
control plane stored the new configuration, every other non-raising result
leaves the stored configuration unchanged. -/
def applyScale (pool : PoolConfig) (target : Int) (dry : Bool) :
    PoolConfig × Bool :=
  match scale_pool_nodes pool target dry with
  | .valueError => (pool, true)
  | .noChange _ => (pool, false)
  | .dryRunPreview _ => (pool, false)
  | .updated cfg => (cfg, false)

/-- Embedding of the body of the `scale_batch_pools` loop
(DR_scale_batch.py 41-74) for one configured pair of pools: read the
scale-down pool's current node count, scale the scale-down pool to 0, then
scale the scale-up pool to that count, or to 1 if the count was 0.  A
raised `ValueError` is caught by the per-pair handler and the rest of the
pair is skipped (`continue`). -/
def scale_batch_pools_pair (down up : PoolConfig) (dry_run : Bool) :
    PoolConfig × PoolConfig :=
  let current_nodes := currentDedicatedNodes down
  let (down2, raised) := applyScale down 0 dry_run
  if raised then (down2, up)
  else
    let target_nodes : Int := if current_nodes == 0 then 1 else current_nodes
    let (up2, _) := applyScale up target_nodes dry_run
    (down2, up2)

/-! ## Key Vault secret sync (`sync_key_vaults`)

DR_sync_kv.py lines 33-103.  A vault is an association list from secret
name to secret value. -/

/-- A key vault: secret name to secret value. -/
abbrev Vault := List (String × String)

/-- Read `get_secret`: the value stored under the name, if any (the source
raises when the secret is absent; callers catch that per secret). -/
def get_secret (v : Vault) (n : String) : Option String :=
  match v.find? (fun p => p.1 == n) with
  | none => none
  | some p => some p.2

/-- Effect of `set_secret`: store the value under the name, replacing any
existing value. -/
def set_secret (v : Vault) (n val : String) : Vault :=
  if v.any (fun p => p.1 == n) then
    v.map (fun p => if p.1 == n then (p.1, val) else p)
  else
    v ++ [(n, val)]

/-- What the per-secret loop body did with one secret. -/
inductive SecretAction where
  | skippedIdentical (name : String)
  | wouldCopy (name : String)
  | copied (name : String)
deriving DecidableEq, Repr

/-- Embedding of the per-secret body of the `sync_key_vaults` loop
(DR_sync_kv.py 72-99): fetch the source value (a failure is caught by the
per-secret handler, leaving the target untouched); try the target value
and skip when both exist and are equal; otherwise report the intended
write in dry-run mode or overwrite the target secret. -/
def syncSecret (source : Vault) (dry_run : Bool) (target : Vault)
    (name : String) : Vault × List SecretAction :=
  match get_secret source name with
  | none => (target, [])
  | some source_value =>
    match get_secret target name with
    | some target_value =>
      if source_value == target_value then (target, [.skippedIdentical name])
      else if dry_run then (target, [.wouldCopy name])
      else (set_secret target name source_value, [.copied name])
    | none =>
      if dry_run then (target, [.wouldCopy name])
      else (set_secret target name source_value, [.copied name])

/-- One configured source/target vault pair from `kvSync`. -/
structure KvPair where
  source : Vault
  target : Vault
deriving DecidableEq, Repr

/-- Embedding of one iteration of the outer `sync_key_vaults` loop:
`list_secrets` enumerates the source vault's secret names and each is
processed by the per-secret body. -/
def syncVaultPair (dry_run : Bool) (p : KvPair) : KvPair × List SecretAction :=
  let names := p.source.map Prod.fst
  let folded := names.foldl
    (fun (acc : Vault × List SecretAction) n =>
      let r := syncSecret p.source dry_run acc.1 n
      (r.1, acc.2 ++ r.2))
    (p.target, [])
  ({ p with target := folded.1 }, folded.2)

/-- Embedding of `sync_key_vaults` (DR_sync_kv.py 33-103) after the
configuration has been read: when `config.get("mode")` is `"failback"` the
function returns at once, otherwise every configured vault pair is
synced. -/
def sync_key_vaults (config_mode : Option String) (kv_configs : List KvPair)
    (dry_run : Bool) : List KvPair × List SecretAction :=
  if config_mode == some "failback" then (kv_configs, [])
  else
    kv_configs.foldl
      (fun acc p =>
        let r := syncVaultPair dry_run p
        (acc.1 ++ [r.1], acc.2 ++ r.2))
      ([], [])

/-! ## build.json generation (`build.py`)

The static maps of `create_maps` (build.py 88-106: `adf_map`, `rg_map`) and
the single-domain `ADFTrigger` entry of `generate_json`
(build.py 294-303). -/

/-- The `adf_map` dictionary of `create_maps`. -/
def adf_map : String → String → Option String
  | "Sales", "qa" => some "qaSalesADF"
  | "Sales", "prod" => some "prodSalesADF"
  | "Sales", "DR" => some "DRSalesADF"
  | "Finance", "qa" => some "qaFinanceADF"
  | "Finance", "prod" => some "prodFinanceADF"
  | "Finance", "DR" => some "DRFinanceADF"
  | "Customer", "qa" => some "qaCustomerADF"
  | "Customer", "prod" => some "prodCustomerADF"
  | "Customer", "DR" => some "DRCustomerADF"
  | "Accounting", "qa" => some "qaAccountingADF"
  | "Accounting", "prod" => some "prodAccountingADF"
  | "Accounting", "DR" => some "DRAccountingADF"
  | "Retail", "qa" => some "qaRetailADF"
  | "Retail", "prod" => some "prodRetailADF"
  | "Retail", "DR" => some "DRRetailADF"
  | "Nonedw", "qa" => some "qaNonedwADF"
  | "Nonedw", "prod" => some "prodNonedwADF"
  | "Nonedw", "DR" => some "DRNonedwADF"
  | "Associates", "qa" => some "qaAssociatesADF"
  | "Associates", "prod" => some "prodAssociatesADF"
  | "Associates", "DR" => some "DRAssociatesADF"
  | _, _ => none

/-- The `rg_map` dictionary of `create_maps`. -/
def rg_map : String → String → Option String
  | "Sales", "qa" => some "qaSalesRG"
  | "Sales", "prod" => some "prodSalesRG"
  | "Sales", "DR" => some "DRSalesRG"
  | "Finance", "qa" => some "qaFinanceRG"
  | "Finance", "prod" => some "prodFinanceRG"
  | "Finance", "DR" => some "DRFinanceRG"
  | "Customer", "qa" => some "qaCustomerRG"
  | "Customer", "prod" => some "prodCustomerRG"
  | "Customer", "DR" => some "DRCustomerRG"
  | "Accounting", "qa" => some "qaAccountingRG"
  | "Accounting", "prod" => some "prodAccountingRG"
  | "Accounting", "DR" => some "DRAccountingRG"
  | "Retail", "qa" => some "qaRetailRG"
  | "Retail", "prod" => some "prodRetailRG"
  | "Retail", "DR" => some "DRRetailRG"
  | "Nonedw", "qa" => some "qaNonedwRG"
  | "Nonedw", "prod" => some "prodNonedwRG"
  | "Nonedw", "DR" => some "DRNonedwRG"
  | "Associates", "qa" => some "qaAssociatesRG"
  | "Associates", "prod" => some "prodAssociatesRG"
  | "Associates", "DR" => some "DRAssociatesRG"
  | _, _ => none

/-- Python's `str.lower()` as used on the environment tag (the tags are
ASCII). -/
def strLower (s : String) : String :=
  String.mk (s.data.map Char.toLower)

/-- One `resourceGroup`/`adf` reference in the generated configuration. -/
structure AdfRef where
  resourceGroup : String
  adf : String
deriving DecidableEq, Repr

/-- The `start`/`stop` entries of the single-domain `ADFTrigger` structure
(build.py 294-303): in failover mode `start` points at the DR resource
group and factory and `stop` at the environment's, in failback mode the
other way round.  `none` models a `KeyError` on a missing map entry. -/
def adfTriggerEntry (mode domain environment : String) :
    Option (AdfRef × AdfRef) := do
  let startRG ←
    if mode == "failover" then rg_map domain "DR"
    else rg_map domain (strLower environment)
  let startADF ←
    if mode == "failover" then adf_map domain "DR"
    else adf_map domain (strLower environment)
  let stopRG ←
    if mode == "failover" then rg_map domain (strLower environment)
    else rg_map domain "DR"
  let stopADF ←
    if mode == "failover" then adf_map domain (strLower environment)
    else adf_map domain "DR"
  pure (⟨startRG, startADF⟩, ⟨stopRG, stopADF⟩)

/-- The `ADFTrigger` entry produced by `generate_json` for a single domain
(build.py 249-303): the single-domain branch is taken when `domain` is not
`"All"`, rejects `"Retail"` with a `ValueError`, and emits the entry only
when the `azure` toggle is set. -/
def generate_json_single_ADFTrigger (mode : String) (azure : Bool)
    (domain environment : String) : Option (AdfRef × AdfRef) :=
  if domain == "All" then none
  else if domain == "Retail" then none
  else if azure then adfTriggerEntry mode domain environment
  else none

end DRScripts

namespace DRScripts

/-- C1: counter-evidence for the claim that a non-matching old FQDN always
leaves the stored value unchanged and produces a warning, for both schema
variants.  On a Snowflake V2 linked service whose accountIdentifier is
"xyz", rewriting "abc" to "def" finds no anchored match (the substitution
is the identity), yet the code issues the update API call and replaces the
stored accountIdentifier with the bare new FQDN "def" instead of warning. -/
theorem c1_v2_no_match_still_writes :
    sfSub "abc" "def" "xyz" = "xyz" ∧
    update_linked_service_sf_account
        ⟨"SnowflakeV2", none, some "xyz"⟩ "abc" "def" false =
      .updated ⟨"SnowflakeV2", none, some "def"⟩ := by
  constructor
  · rfl
  · rfl

/-- Deleting, one by one, the name of every lock in `l` empties any world
`w` all of whose locks have their name among those of `l`. -/
theorem foldl_deleteLockAt_nil (l : List Lock) (w : List Lock)
    (hw : ∀ x ∈ w, x.name ∈ l.map Lock.name) :
    l.foldl (fun acc lk => deleteLockAt acc lk.name) w = [] := by
  induction l generalizing w with
  | nil =>
    cases w with
    | nil => rfl
    | cons a tl => exact absurd (hw a (List.mem_cons_self a tl)) (by simp)
  | cons lk l ih =>
    simp only [List.foldl_cons]
    apply ih
    intro x hx
    have hx2 : x ∈ w ∧ (x.name != lk.name) = true := by
      simpa [deleteLockAt] using List.mem_filter.mp hx
    obtain ⟨hxw, hne⟩ := hx2
    have hmem := hw x hxw
    simp only [List.map_cons, List.mem_cons] at hmem
    rcases hmem with h1 | h2
    · exact absurd h1 (by simpa using hne)
    · exact h2

/-- Recreating locks whose names are distinct and absent from the
accumulator appends them in order. -/
theorem foldl_createOrUpdateLockAt_append (l : List Lock) (acc : List Lock)
    (hdisj : ∀ x ∈ l, x.name ∉ acc.map Lock.name)
    (hnd : (l.map Lock.name).Nodup) :
    l.foldl (fun a lk => createOrUpdateLockAt a lk) acc = acc ++ l := by
  induction l generalizing acc with
  | nil => simp
  | cons lk l ih =>
    simp only [List.foldl_cons]
    have hany : acc.any (fun x => x.name == lk.name) = false := by
      simp only [List.any_eq_false]
      intro x hx
      have hne : x.name ≠ lk.name := by
        intro he
        exact (hdisj lk (List.mem_cons_self lk l))
          (he ▸ List.mem_map_of_mem Lock.name hx)
      simp [hne]
    have hno : createOrUpdateLockAt acc lk = acc ++ [lk] := by
      unfold createOrUpdateLockAt
      rw [hany]
      simp
    rw [hno]
    simp only [List.map_cons, List.nodup_cons] at hnd
    rw [ih (acc ++ [lk])]
    · simp
    · intro x hx
      have hxacc : x.name ∉ acc.map Lock.name :=
        hdisj x (List.mem_cons_of_mem lk hx)
      have hxlk : x.name ≠ lk.name := by
        intro he
        exact hnd.1 (he ▸ List.mem_map_of_mem Lock.name hx)
      simp [hxacc, hxlk]
    · exact hnd.2

/-- C2 counterexample: the claim as stated is false on the code.  With one
lock recorded and released (dry-run false) and a factory whose
schedule/tumbling trigger list is empty, the loop body runs the
`continue` at DR_start_stop_adf_trigger.py 73-75 after the release, no
exception is raised, and neither recreation site executes: the lock set
after the sequence is empty, not equal to the lock set before it. -/
theorem c2_lock_leak_counterexample :
    manage_adf_triggers_locks false true false
        [⟨"lk1", "CanNotDelete", "keep"⟩] = [] ∧
    manage_adf_triggers_locks false true false
        [⟨"lk1", "CanNotDelete", "keep"⟩] ≠
      [⟨"lk1", "CanNotDelete", "keep"⟩] := by
  constructor
  · rfl
  · decide

/-- C2 (amended): for the lock-guarded trigger sequence of
`manage_adf_triggers` with dry-run false, provided the factory's
schedule/tumbling trigger list is non-empty (so the early `continue` at
DR_start_stop_adf_trigger.py 73-75 is not taken), the recorded locks are
released and then recreated with identical name, level and notes, both
when the trigger steps complete normally and when they raise, so the
resource group's lock set after the sequence equals its lock set before
it.  The hypothesis that lock names are distinct reflects Azure's rule
that lock names are unique at a given scope. -/
theorem c2_lock_set_preserved (stepsRaise : Bool) (locks0 : List Lock)
    (hnd : (locks0.map Lock.name).Nodup) :
    manage_adf_triggers_locks false false stepsRaise locks0 = locks0 := by
  cases locks0 with
  | nil => cases stepsRaise <;> rfl
  | cons lk rest =>
    have hrel : release_locks (lk :: rest) false (lk :: rest) = ([], true) := by
      unfold release_locks
      simp only [List.isEmpty_cons, if_false, Bool.false_eq_true]
      rw [foldl_deleteLockAt_nil (lk :: rest) (lk :: rest)
        (fun x hx => List.mem_map_of_mem Lock.name hx)]
    have hrec : recreate_locks (lk :: rest) true [] = lk :: rest := by
      unfold recreate_locks
      simp only [List.isEmpty_cons, if_false, Bool.not_true, Bool.false_eq_true]
      rw [foldl_createOrUpdateLockAt_append (lk :: rest) []
        (by intro x _; simp) hnd]
      simp
    unfold manage_adf_triggers_locks
    cases stepsRaise <;> simp [hrel, hrec]

/-- C2 witness: a concrete two-lock resource group is preserved across a
raising sequence on a factory with triggers. -/
theorem c2_lock_set_preserved_witness :
    manage_adf_triggers_locks false false true
        [⟨"lk1", "CanNotDelete", "keep"⟩, ⟨"lk2", "ReadOnly", "ro"⟩] =
      [⟨"lk1", "CanNotDelete", "keep"⟩, ⟨"lk2", "ReadOnly", "ro"⟩] :=
  c2_lock_set_preserved true _ (by decide)

/-- C3: `manage_trigger` is an idempotent no-op when the trigger is already
in the target state: it reads the current runtime state, issues no start or
stop API call, and leaves the factory unchanged. -/
theorem c3_manage_trigger_idempotent (fac : Factory)
    (trigger_name action : String) (t : Trigger)
    (hget : lookupTrigger fac trigger_name = some t)
    (h : (action = "start" ∧ t.runtimeState = "Started") ∨
      (action = "stop" ∧ t.runtimeState = "Stopped")) :
    manage_trigger fac trigger_name action =
      .ok (fac, [TriggerCall.fetch trigger_name]) := by
  unfold manage_trigger
  rw [hget]
  rcases h with ⟨ha, hs⟩ | ⟨ha, hs⟩ <;> subst ha <;> simp only [hs] <;> rfl

/-- C3 witness: starting an already-started trigger issues only the read
call and changes nothing. -/
theorem c3_manage_trigger_idempotent_witness :
    manage_trigger [("t1", ⟨"ScheduleTrigger", "Started", 0⟩)] "t1" "start" =
      .ok ([("t1", ⟨"ScheduleTrigger", "Started", 0⟩)],
        [TriggerCall.fetch "t1"]) :=
  c3_manage_trigger_idempotent _ _ _ ⟨"ScheduleTrigger", "Started", 0⟩ rfl
    (Or.inl ⟨rfl, rfl⟩)

/-- C4: `scale_pool_nodes` raises `ValueError` on every negative target,
returns the current configuration without an update call when the current
dedicated-node count equals the target, and in dry-run mode returns the
would-be configuration without an update call when they differ. -/
theorem c4_scale_pool_nodes_contract (pool : PoolConfig)
    (target_nodes : Int) (dry_run : Bool) :
    (target_nodes < 0 →
      scale_pool_nodes pool target_nodes dry_run = .valueError) ∧
    (0 ≤ target_nodes → currentDedicatedNodes pool = target_nodes →
      scale_pool_nodes pool target_nodes dry_run = .noChange pool) ∧
    (0 ≤ target_nodes → currentDedicatedNodes pool ≠ target_nodes →
      scale_pool_nodes pool target_nodes true = .dryRunPreview
        { scaleSettings := some
            { fixedScale := some
                { targetDedicatedNodes := some target_nodes } } }) := by
  refine ⟨?_, ?_, ?_⟩
  · intro hneg
    simp [scale_pool_nodes, hneg]
  · intro hpos heq
    have hnlt : ¬ target_nodes < 0 := by omega
    simp [scale_pool_nodes, hnlt, heq]
  · intro hpos hne
    have hnlt : ¬ target_nodes < 0 := by omega
    have hbeq : (currentDedicatedNodes pool == target_nodes) = false := by
      simp [hne]
    simp [scale_pool_nodes, hnlt, hbeq]

/-- C4 witness: on a pool with 5 dedicated nodes, a negative target raises,
target 5 is a no-op, and a dry-run to 7 only previews. -/
theorem c4_scale_pool_nodes_contract_witness :
    scale_pool_nodes ⟨some ⟨some ⟨some 5⟩⟩⟩ (-1) false = .valueError ∧
    scale_pool_nodes ⟨some ⟨some ⟨some 5⟩⟩⟩ 5 false =
      .noChange ⟨some ⟨some ⟨some 5⟩⟩⟩ ∧
    scale_pool_nodes ⟨some ⟨some ⟨some 5⟩⟩⟩ 7 true =
      .dryRunPreview ⟨some ⟨some ⟨some 7⟩⟩⟩ :=
  ⟨(c4_scale_pool_nodes_contract ⟨some ⟨some ⟨some 5⟩⟩⟩ (-1) false).1 (by decide),
   (c4_scale_pool_nodes_contract ⟨some ⟨some ⟨some 5⟩⟩⟩ 5 false).2.1 (by decide)
     (by decide),
   (c4_scale_pool_nodes_contract ⟨some ⟨some ⟨some 5⟩⟩⟩ 7 true).2.2 (by decide)
     (by decide)⟩

/-- A live (non-dry-run) `scale_pool_nodes` call with a non-negative target
leaves the stored configuration unchanged when it already matches and
otherwise stores the fixed-scale configuration for the target; it never
raises. -/
theorem applyScale_live (pool : PoolConfig) (target : Int) (h : 0 ≤ target) :
    applyScale pool target false =
      (if currentDedicatedNodes pool = target then pool
       else ⟨some ⟨some ⟨some target⟩⟩⟩, false) := by
  unfold applyScale scale_pool_nodes
  have hnlt : ¬ target < 0 := by omega
  rw [if_neg hnlt]
  by_cases hc : currentDedicatedNodes pool = target
  · simp [hc]
  · have hb : (currentDedicatedNodes pool == target) = false := by simp [hc]
    simp [hb, hc]

/-- The dedicated-node count of an explicit fixed-scale configuration. -/
theorem currentDedicatedNodes_mk (t : Int) :
    currentDedicatedNodes ⟨some ⟨some ⟨some t⟩⟩⟩ = t := rfl

/-- C5: the DR scale sequence for one configured pair scales the down pool
to 0 and the up pool to `max 1 previous`, where `previous` is the down
pool's dedicated-node count before the sequence.  The hypothesis that the
count is non-negative reflects the Azure invariant that
`targetDedicatedNodes` is never negative. -/
theorem c5_dr_scale_pair (down up : PoolConfig)
    (h : 0 ≤ currentDedicatedNodes down) :
    currentDedicatedNodes (scale_batch_pools_pair down up false).1 = 0 ∧
    currentDedicatedNodes (scale_batch_pools_pair down up false).2 =
      max 1 (currentDedicatedNodes down) := by
  unfold scale_batch_pools_pair
  rw [applyScale_live down 0 le_rfl]
  by_cases hc : currentDedicatedNodes down = 0
  · have e2 := applyScale_live up 1 (by norm_num)
    have hm : max (1 : Int) 0 = 1 := by norm_num
    by_cases hu : currentDedicatedNodes up = 1
    · simp [hc, e2, hu, hm]
    · simp [hc, e2, hu, hm, currentDedicatedNodes_mk]
  · have hpos : 1 ≤ currentDedicatedNodes down := by omega
    have e2 := applyScale_live up (currentDedicatedNodes down) h
    by_cases hu : currentDedicatedNodes up = currentDedicatedNodes down
    · simp [hc, e2, hu, max_eq_right hpos, currentDedicatedNodes_mk]
    · simp [hc, e2, hu, max_eq_right hpos, currentDedicatedNodes_mk]

/-- C5 witness: pool A with 5 dedicated nodes and pool B with 0 end at
A = 0 and B = 5. -/
theorem c5_dr_scale_pair_witness :
    currentDedicatedNodes
        (scale_batch_pools_pair ⟨some ⟨some ⟨some 5⟩⟩⟩ ⟨some ⟨some ⟨some 0⟩⟩⟩
          false).1 = 0 ∧
    currentDedicatedNodes
        (scale_batch_pools_pair ⟨some ⟨some ⟨some 5⟩⟩⟩ ⟨some ⟨some ⟨some 0⟩⟩⟩
          false).2 = max 1 (currentDedicatedNodes ⟨some ⟨some ⟨some 5⟩⟩⟩) :=
  c5_dr_scale_pair ⟨some ⟨some ⟨some 5⟩⟩⟩ ⟨some ⟨some ⟨some 0⟩⟩⟩ (by decide)

/-- C6: the per-secret sync body skips (and does not overwrite) a secret
whose target value equals the source value; when the values differ or the
secret is absent from the target, dry-run mode only reports the intended
write and live mode overwrites the target secret with the source value. -/
theorem c6_sync_secret_contract (source target : Vault) (dry_run : Bool)
    (name source_value : String)
    (hsrc : get_secret source name = some source_value) :
    (get_secret target name = some source_value →
      syncSecret source dry_run target name =
        (target, [SecretAction.skippedIdentical name])) ∧
    (∀ target_value, get_secret target name = some target_value →
      target_value ≠ source_value →
      syncSecret source dry_run target name =
        (if dry_run then target else set_secret target name source_value,
         [if dry_run then SecretAction.wouldCopy name
          else SecretAction.copied name])) ∧
    (get_secret target name = none →
      syncSecret source dry_run target name =
        (if dry_run then target else set_secret target name source_value,
         [if dry_run then SecretAction.wouldCopy name
          else SecretAction.copied name])) := by
  refine ⟨?_, ?_, ?_⟩
  · intro htgt
    unfold syncSecret
    rw [hsrc, htgt]
    simp
  · intro target_value htgt hne
    unfold syncSecret
    rw [hsrc, htgt]
    have hb : (source_value == target_value) = false := by
      simp [(Ne.symm hne)]
    cases dry_run <;> simp [hb]
  · intro htgt
    unfold syncSecret
    rw [hsrc, htgt]
    cases dry_run <;> simp

/-- C6 witness: with source secrets a=1, b=2, c=3 and target a=1, b=9,
secret a is skipped, live sync overwrites b, and live sync copies the
absent c. -/
theorem c6_sync_secret_contract_witness :
    syncSecret [("a", "1"), ("b", "2"), ("c", "3")] false
        [("a", "1"), ("b", "9")] "a" =
      ([("a", "1"), ("b", "9")], [SecretAction.skippedIdentical "a"]) ∧
    syncSecret [("a", "1"), ("b", "2"), ("c", "3")] false
        [("a", "1"), ("b", "9")] "b" =
      ([("a", "1"), ("b", "2")], [SecretAction.copied "b"]) ∧
    syncSecret [("a", "1"), ("b", "2"), ("c", "3")] false
        [("a", "1"), ("b", "9")] "c" =
      ([("a", "1"), ("b", "9"), ("c", "3")], [SecretAction.copied "c"]) :=
  ⟨(c6_sync_secret_contract [("a", "1"), ("b", "2"), ("c", "3")]
      [("a", "1"), ("b", "9")] false "a" "1" rfl).1 rfl,
   (c6_sync_secret_contract [("a", "1"), ("b", "2"), ("c", "3")]
      [("a", "1"), ("b", "9")] false "b" "2" rfl).2.1 "9" rfl (by decide),
   (c6_sync_secret_contract [("a", "1"), ("b", "2"), ("c", "3")]
      [("a", "1"), ("b", "9")] false "c" "3" rfl).2.2 rfl⟩

/-- C7: `get_token` returns the cached token, unchanged state, and no
credential call whenever a token is cached and its recorded expiry has not
passed; otherwise it calls the credential, caches the fresh token with the
expiry reduced by the 5-minute safety margin, and returns the fresh
token. -/
theorem c7_get_token_contract (cred : Credential) (now : Int)
    (st : TokenState) :
    (∀ t e, st.token = some t → st.tokenExpiry = some e → now < e →
      get_token cred now st = (some t, st, false)) ∧
    (st.token = none ∨ st.tokenExpiry = none ∨
        (∃ e, st.tokenExpiry = some e ∧ e ≤ now) →
      get_token cred now st =
        (some cred.freshToken,
         { token := some cred.freshToken,
           tokenExpiry := some (cred.expiresOn - 5 * 60) }, true)) := by
  constructor
  · intro t e ht he hlt
    have hnle : ¬ e ≤ now := by omega
    simp [get_token, ht, he, hnle]
  · intro hcase
    rcases hcase with h1 | h2 | ⟨e, he, hle⟩
    · simp [get_token, h1]
    · cases hck : st.token <;> simp [get_token, h2, hck]
    · cases hck : st.token <;> simp [get_token, he, hck, hle]

/-- C7 witness: a cached token with an unexpired recorded expiry is
returned as is; once the recorded expiry has passed a fresh token is
fetched and cached with the margin-adjusted expiry. -/
theorem c7_get_token_contract_witness :
    get_token ⟨"fresh", 1000⟩ 500 ⟨some "cached", some 600⟩ =
      (some "cached", ⟨some "cached", some 600⟩, false) ∧
    get_token ⟨"fresh", 1000⟩ 700 ⟨some "cached", some 600⟩ =
      (some "fresh", ⟨some "fresh", some 700⟩, true) :=
  ⟨(c7_get_token_contract ⟨"fresh", 1000⟩ 500 ⟨some "cached", some 600⟩).1
      "cached" 600 rfl rfl (by decide),
   (c7_get_token_contract ⟨"fresh", 1000⟩ 700 ⟨some "cached", some 600⟩).2
      (Or.inr (Or.inr ⟨600, rfl, by decide⟩))⟩

/-- Binding a successful `Except` computation just applies the
continuation. -/
theorem exceptBind_ok {ε α β : Type} (a : α) (f : α → Except ε β) :
    (Except.ok a >>= f : Except ε β) = f a := rfl

/-- Looking up a trigger after `setTriggerState` yields the stored trigger
with its runtime state replaced. -/
theorem lookupTrigger_setTriggerState (fac : Factory) (n s : String) :
    lookupTrigger (setTriggerState fac n s) n =
      (lookupTrigger fac n).map (fun t => { t with runtimeState := s }) := by
  induction fac with
  | nil => rfl
  | cons p fac ih =>
    obtain ⟨k, tv⟩ := p
    by_cases h : k = n
    · subst h
      simp [setTriggerState, lookupTrigger, List.find?_cons]
    · have hb : (k == n) = false := by simp [h]
      simp only [setTriggerState, lookupTrigger, List.map_cons, hb,
        Bool.false_eq_true, if_false, List.find?_cons] at ih ⊢
      exact ih

/-- No trigger named `n` survives `deleteTrigger fac n`. -/
theorem find?_deleteTrigger_none (fac : Factory) (n : String) :
    (deleteTrigger fac n).find? (fun p => p.1 == n) = none := by
  induction fac with
  | nil => rfl
  | cons p fac ih =>
    by_cases h : (p.1 == n) = true
    · simp [deleteTrigger, List.filter_cons, h, ih, bne]
    · have h2 : (p.1 == n) = false := by
        cases hb : (p.1 == n) with
        | true => exact absurd hb h
        | false => rfl
      simp only [deleteTrigger] at ih
      simp [deleteTrigger, List.filter_cons, h2, bne, List.find?_cons, ih]

/-- Looking up a trigger right after `createTrigger` returns the created
definition, in runtime state `Stopped`. -/
theorem lookupTrigger_createTrigger (fac : Factory) (n : String)
    (t : Trigger) :
    lookupTrigger (createTrigger fac n t) n =
      some { t with runtimeState := "Stopped" } := by
  unfold createTrigger lookupTrigger
  rw [List.find?_append, find?_deleteTrigger_none]
  simp

/-- C8: resetting the start time of a tumbling-window trigger that is
currently `Started` performs capture, stop, delete, recreate with the new
start time, and restart, in that order, and the trigger ends `Started`
with its start time equal to the new value. -/
theorem c8_reset_tumbling_started (fac : Factory) (trigger_name : String)
    (t : Trigger) (new_start_time : Int)
    (hget : lookupTrigger fac trigger_name = some t)
    (hty : t.ttype = "TumblingWindowTrigger")
    (hst : t.runtimeState = "Started") :
    reset_tumbling_with_start_time fac trigger_name new_start_time =
      Except.ok
        (setTriggerState
          (createTrigger
            (deleteTrigger (setTriggerState fac trigger_name "Stopped")
              trigger_name)
            trigger_name { t with startTime := new_start_time })
          trigger_name "Started",
         [TriggerCall.fetch trigger_name, TriggerCall.fetch trigger_name,
          TriggerCall.stop trigger_name, TriggerCall.del trigger_name,
          TriggerCall.create trigger_name { t with startTime := new_start_time },
          TriggerCall.fetch trigger_name, TriggerCall.start trigger_name]) ∧
    lookupTrigger
        (setTriggerState
          (createTrigger
            (deleteTrigger (setTriggerState fac trigger_name "Stopped")
              trigger_name)
            trigger_name { t with startTime := new_start_time })
          trigger_name "Started")
        trigger_name =
      some ⟨"TumblingWindowTrigger", "Started", new_start_time⟩ := by
  cases t with
  | mk ty rs st0 =>
  replace hty : ty = "TumblingWindowTrigger" := hty
  replace hst : rs = "Started" := hst
  subst hty
  subst hst
  have hstop : manage_trigger fac trigger_name "stop" =
      .ok (setTriggerState fac trigger_name "Stopped",
        [TriggerCall.fetch trigger_name, TriggerCall.stop trigger_name]) := by
    unfold manage_trigger
    rw [hget]
    rfl
  have hstart : manage_trigger
      (createTrigger
        (deleteTrigger (setTriggerState fac trigger_name "Stopped")
          trigger_name)
        trigger_name
        ⟨"TumblingWindowTrigger", "Started", new_start_time⟩)
      trigger_name "start" =
      .ok (setTriggerState
            (createTrigger
              (deleteTrigger (setTriggerState fac trigger_name "Stopped")
                trigger_name)
              trigger_name
              ⟨"TumblingWindowTrigger", "Started", new_start_time⟩)
            trigger_name "Started",
        [TriggerCall.fetch trigger_name, TriggerCall.start trigger_name]) := by
    unfold manage_trigger
    rw [lookupTrigger_createTrigger]
    rfl
  refine ⟨?_, ?_⟩
  · unfold reset_tumbling_with_start_time
    rw [hget]
    simp [hstop, hstart]
  · rw [lookupTrigger_setTriggerState, lookupTrigger_createTrigger]
    simp

/-- C8 witness: a concrete started tumbling trigger with start time 10 is
reset to 99 through the stop/delete/recreate/restart sequence and ends
started with start time 99. -/
theorem c8_reset_tumbling_started_witness :
    reset_tumbling_with_start_time
        [("t1", ⟨"TumblingWindowTrigger", "Started", 10⟩)] "t1" 99 =
      Except.ok ([("t1", ⟨"TumblingWindowTrigger", "Started", 99⟩)],
        [TriggerCall.fetch "t1", TriggerCall.fetch "t1",
         TriggerCall.stop "t1", TriggerCall.del "t1",
         TriggerCall.create "t1" ⟨"TumblingWindowTrigger", "Started", 99⟩,
         TriggerCall.fetch "t1", TriggerCall.start "t1"]) :=
  (c8_reset_tumbling_started
      [("t1", ⟨"TumblingWindowTrigger", "Started", 10⟩)] "t1"
      ⟨"TumblingWindowTrigger", "Started", 10⟩ 99 rfl rfl rfl).1

/-- C9: generating the configuration for domain Sales, environment qa,
failover mode with the azure toggle set maps the ADFTrigger `start` entry
to the DR resource group and factory and the `stop` entry to the qa
resource group and factory from the static maps. -/
theorem c9_generate_json_sales_qa_failover :
    generate_json_single_ADFTrigger "failover" true "Sales" "qa" =
      some (⟨"DRSalesRG", "DRSalesADF"⟩, ⟨"qaSalesRG", "qaSalesADF"⟩) := by
  decide

/-- C10: when the configuration mode is failback, `sync_key_vaults`
returns right after reading the configuration: every configured vault pair
is returned untouched and no secret is listed, read, or written. -/
theorem c10_sync_kv_failback_noop (kv_configs : List KvPair)
    (dry_run : Bool) :
    sync_key_vaults (some "failback") kv_configs dry_run =
      (kv_configs, []) := rfl

end DRScripts
